import Mathlib

/-!
Shallow embedding of the Internet Complaint Register backend
(src/main.py and src/schemas.py): the complaint lifecycle and
notification-trigger logic, with the document store modelled as an
association list and time passed explicitly.
-/

namespace ComplaintApp

/-- A timeline note entry, as pushed by `update_complaint` in src/main.py
(`{"text": ..., "timestamp": ...}`). -/
structure Note where
  text : String
  timestamp : Nat
deriving DecidableEq, Repr

/-- A stored complaint document: the fields of `Complaint` in
src/schemas.py plus the `created_at`/`updated_at` timestamps the database
helpers add. -/
structure ComplaintDoc where
  customer_name : String
  customer_contact : String
  address : Option String
  subject : String
  description : String
  priority : String
  status : String
  assigned_team : Option String
  notes : List Note
  created_at : Nat
  updated_at : Nat
deriving DecidableEq, Repr

/-- A stored notification document: the fields of `Notification` in
src/schemas.py plus timestamps. -/
structure NotificationDoc where
  user_id : String
  title : String
  message : String
  type : String
  is_read : Bool
  related_complaint_id : Option String
  created_at : Nat
  updated_at : Nat
deriving DecidableEq, Repr

/-- The create payload: `ComplaintCreate(Complaint)` in src/main.py
inherits every `Complaint` field, with the pydantic defaults
(`priority="normal"`, `status="pending"`, `assigned_team=None`,
`notes=[]`); a client may supply any of them. -/
structure ComplaintCreate where
  customer_name : String
  customer_contact : String
  address : Option String := none
  subject : String
  description : String
  priority : String := "normal"
  status : String := "pending"
  assigned_team : Option String := none
  notes : List Note := []
deriving DecidableEq, Repr

/-- `ComplaintUpdate` in src/main.py: every field optional, `none`
meaning the field was not supplied (pydantic default `None`). -/
structure ComplaintUpdate where
  subject : Option String := none
  description : Option String := none
  priority : Option String := none
  status : Option String := none
  assigned_team : Option String := none
  note : Option String := none
deriving DecidableEq, Repr

/-- `AssignTeamRequest` in src/main.py: a required `team: str` field,
with no further validation. -/
structure AssignTeamRequest where
  team : String
deriving DecidableEq, Repr

/-- `MarkReadRequest` in src/main.py: `is_read: bool = True`. -/
structure MarkReadRequest where
  is_read : Bool := true
deriving DecidableEq, Repr

/-- Errors raised through `HTTPException`: 400 for a malformed id
(`oid`), 404 for a missing record. -/
inductive ApiError where
  | BadId
  | NotFound
deriving DecidableEq, Repr

/-- The document store: the `complaint` and `notification` collections,
keyed by object id. -/
structure DBState where
  complaints : List (String × ComplaintDoc)
  notifications : List (String × NotificationDoc)
deriving DecidableEq, Repr

/-- `bson.ObjectId(id_str)` accepts a string exactly when it is a
24-character hexadecimal token; `oid` in src/main.py turns any other
input into a 400 error before the store is touched. -/
def validObjectId (s : String) : Bool :=
  s.length == 24 && s.data.all (fun c => c.isDigit || (('a' ≤ c) && (c ≤ 'f')) || (('A' ≤ c) && (c ≤ 'F')))

/-- Mongo-style find-by-id: the first value stored under key `k`. -/
def lookupKey (l : List (String × α)) (k : String) : Option α :=
  match l with
  | [] => none
  | (k', v) :: t => if k' = k then some v else lookupKey t k

/-- Mongo-style `update_one`: rewrite the value at key `k` (first match
semantics; keys are unique in practice), leaving the list unchanged when
no entry matches. -/
def updateAssoc (l : List (String × α)) (k : String) (f : α → α) : List (String × α) :=
  match l with
  | [] => []
  | (k', v) :: t => if k' = k then (k', f v) :: t else (k', v) :: updateAssoc t k f

/-- The `$set`/`$push` update document built by `update_complaint` in
src/main.py: each non-`None` payload field replaces the stored one,
`updated_at` is set to now, and a note entry is pushed exactly when
`payload.note` is truthy (present and non-empty). -/
def applyUpdateFields (payload : ComplaintUpdate) (now : Nat) (c : ComplaintDoc) : ComplaintDoc :=
  let c1 : ComplaintDoc :=
    { c with
      subject := payload.subject.getD c.subject
      description := payload.description.getD c.description
      priority := payload.priority.getD c.priority
      status := payload.status.getD c.status
      assigned_team := match payload.assigned_team with
        | some t => some t
        | none => c.assigned_team
      updated_at := now }
  match payload.note with
  | some n => if n = "" then c1 else { c1 with notes := c1.notes ++ [⟨n, now⟩] }
  | none => c1

/-- The admin notification emitted by `create_complaint`. -/
def createNotif (payload : ComplaintCreate) (compId : String) (now : Nat) : NotificationDoc :=
  { user_id := "admin"
    title := "New complaint submitted"
    message := payload.customer_name ++ " reported: " ++ payload.subject
    type := "info"
    is_read := false
    related_complaint_id := some compId
    created_at := now
    updated_at := now }

/-- The admin notification emitted by `update_complaint` when `status`
is among the supplied fields. -/
def statusNotif (complaint_id s : String) (now : Nat) : NotificationDoc :=
  { user_id := "admin"
    title := "Complaint status updated"
    message := "Complaint " ++ complaint_id ++ " status: " ++ s
    type := if s = "complete" then "success" else "info"
    is_read := false
    related_complaint_id := some complaint_id
    created_at := now
    updated_at := now }

/-- The team notification emitted by `assign_team`. -/
def assignNotif (team complaint_id : String) (now : Nat) : NotificationDoc :=
  { user_id := team
    title := "New assignment"
    message := "You have been assigned complaint " ++ complaint_id
    type := "warning"
    is_read := false
    related_complaint_id := some complaint_id
    created_at := now
    updated_at := now }

/-- `POST /api/complaints` (`create_complaint` in src/main.py): insert
the payload as a complaint document (store assigns `compId` and the
timestamps), then insert one admin notification referencing it. Returns
the new complaint id. -/
def create_complaint (payload : ComplaintCreate) (compId notifId : String) (now : Nat)
    (st : DBState) : String × DBState :=
  let comp : ComplaintDoc :=
    { customer_name := payload.customer_name
      customer_contact := payload.customer_contact
      address := payload.address
      subject := payload.subject
      description := payload.description
      priority := payload.priority
      status := payload.status
      assigned_team := payload.assigned_team
      notes := payload.notes
      created_at := now
      updated_at := now }
  (compId,
    { complaints := st.complaints ++ [(compId, comp)]
      notifications := st.notifications ++ [(notifId, createNotif payload compId now)] })

/-- `GET /api/complaints/{id}` (`get_complaint` in src/main.py):
malformed id fails fast with BadId, missing record with NotFound. -/
def get_complaint (complaint_id : String) (st : DBState) : Except ApiError ComplaintDoc :=
  if ¬ validObjectId complaint_id then .error .BadId
  else match lookupKey st.complaints complaint_id with
    | none => .error .NotFound
    | some c => .ok c

/-- `PATCH /api/complaints/{id}` (`update_complaint` in src/main.py):
after the id check, `update_one` runs against the store (a no-op when
nothing matches), then 404 is raised if nothing matched; on a match,
exactly when `status` was supplied, one admin notification is inserted.
The state component is the store after the request, errors included. -/
def update_complaint (complaint_id : String) (payload : ComplaintUpdate) (notifId : String)
    (now : Nat) (st : DBState) : Except ApiError Unit × DBState :=
  if ¬ validObjectId complaint_id then (.error .BadId, st)
  else
    let matched := (lookupKey st.complaints complaint_id).isSome
    let st1 : DBState :=
      { st with complaints := updateAssoc st.complaints complaint_id (applyUpdateFields payload now) }
    if ¬ matched then (.error .NotFound, st1)
    else match payload.status with
      | some s =>
          (.ok (), { st1 with notifications := st1.notifications ++ [(notifId, statusNotif complaint_id s now)] })
      | none => (.ok (), st1)

/-- `POST /api/complaints/{id}/assign` (`assign_team` in src/main.py):
sets `assigned_team` to the requested team and forces `status` to
"process", refreshing `updated_at`; on a match, one warning notification
to the team is inserted. -/
def assign_team (complaint_id : String) (req : AssignTeamRequest) (notifId : String)
    (now : Nat) (st : DBState) : Except ApiError Unit × DBState :=
  if ¬ validObjectId complaint_id then (.error .BadId, st)
  else
    let matched := (lookupKey st.complaints complaint_id).isSome
    let f : ComplaintDoc → ComplaintDoc :=
      fun c => { c with assigned_team := some req.team, status := "process", updated_at := now }
    let st1 : DBState := { st with complaints := updateAssoc st.complaints complaint_id f }
    if ¬ matched then (.error .NotFound, st1)
    else
      (.ok (), { st1 with notifications := st1.notifications ++ [(notifId, assignNotif req.team complaint_id now)] })

/-- `PATCH /api/notifications/{id}` (`mark_notification` in
src/main.py): sets `is_read` to the requested flag and refreshes
`updated_at`. -/
def mark_notification (notification_id : String) (req : MarkReadRequest)
    (now : Nat) (st : DBState) : Except ApiError Unit × DBState :=
  if ¬ validObjectId notification_id then (.error .BadId, st)
  else
    let matched := (lookupKey st.notifications notification_id).isSome
    let f : NotificationDoc → NotificationDoc :=
      fun n => { n with is_read := req.is_read, updated_at := now }
    let st1 : DBState := { st with notifications := updateAssoc st.notifications notification_id f }
    if ¬ matched then (.error .NotFound, st1)
    else (.ok (), st1)


/-! ### Concrete sample data for counterexamples and witnesses -/

/-- A fixed well-formed 24-hex object id. -/
def oid24 : String := "aaaaaaaaaaaaaaaaaaaaaaaa"

/-- A second fixed well-formed object id. -/
def oidB : String := "bbbbbbbbbbbbbbbbbbbbbbbb"

/-- A third fixed well-formed object id. -/
def oidC : String := "cccccccccccccccccccccccc"

/-- The empty store. -/
def emptyDB : DBState := ⟨[], []⟩

/-- A sample create payload supplying only the required fields. -/
def pay1 : ComplaintCreate :=
  { customer_name := "A", customer_contact := "a@x.com",
    subject := "No signal", description := "Internet down at home" }

/-- A sample stored complaint document (already `complete`, one note). -/
def sampleComplaint : ComplaintDoc :=
  { customer_name := "A", customer_contact := "a@x.com", address := none,
    subject := "No signal", description := "Internet down at home",
    priority := "normal", status := "complete", assigned_team := none,
    notes := [⟨"first note", 1⟩], created_at := 0, updated_at := 1 }

/-- A sample stored notification document. -/
def sampleNotif : NotificationDoc :=
  { user_id := "team-x", title := "t", message := "m", type := "info",
    is_read := false, related_complaint_id := some oid24,
    created_at := 0, updated_at := 0 }

/-- A sample store with one complaint and one notification. -/
def sampleDB : DBState := ⟨[(oid24, sampleComplaint)], [(oidB, sampleNotif)]⟩

/-- An update payload supplying only a new status `"complete"`. -/
def updComplete : ComplaintUpdate := { status := some "complete" }

/-- An update payload supplying only a note. -/
def updNoteOnly : ComplaintUpdate := { note := some "checked the line" }

/-- An update payload whose note is the empty string. -/
def updEmptyNote : ComplaintUpdate := { note := some "" }

/-- The empty update payload (nothing supplied). -/
def updEmpty : ComplaintUpdate := {}

/-! ### Association-list lemmas -/

theorem lookupKey_updateAssoc_self (l : List (String × α)) (k : String) (f : α → α) :
    lookupKey (updateAssoc l k f) k = (lookupKey l k).map f := by
  induction l with
  | nil => rfl
  | cons p t ih =>
    obtain ⟨k', v⟩ := p
    by_cases h : k' = k
    · simp [updateAssoc, lookupKey, h]
    · simp [updateAssoc, lookupKey, h, ih]

theorem lookupKey_updateAssoc_ne (l : List (String × α)) (k k' : String) (f : α → α)
    (h : k' ≠ k) : lookupKey (updateAssoc l k f) k' = lookupKey l k' := by
  induction l with
  | nil => rfl
  | cons p t ih =>
    obtain ⟨k0, v⟩ := p
    by_cases h0 : k0 = k
    · subst h0
      have hne : k0 ≠ k' := fun e => h e.symm
      simp [updateAssoc, lookupKey, hne]
    · by_cases h1 : k0 = k'
      · simp [updateAssoc, lookupKey, h0, h1, h]
      · simp [updateAssoc, lookupKey, h0, h1, ih]

theorem updateAssoc_of_lookupKey_none (l : List (String × α)) (k : String) (f : α → α)
    (h : lookupKey l k = none) : updateAssoc l k f = l := by
  induction l with
  | nil => rfl
  | cons p t ih =>
    obtain ⟨k', v⟩ := p
    by_cases h0 : k' = k
    · simp [lookupKey, h0] at h
    · simp [lookupKey, h0] at h
      simp [updateAssoc, h0, ih h]

theorem lookupKey_append_fresh (l : List (String × α)) (k : String) (v : α)
    (h : lookupKey l k = none) : lookupKey (l ++ [(k, v)]) k = some v := by
  induction l with
  | nil => simp [lookupKey]
  | cons p t ih =>
    obtain ⟨k', w⟩ := p
    by_cases h0 : k' = k
    · simp [lookupKey, h0] at h
    · simp [lookupKey, h0] at h ⊢
      exact ih h



/-! ### C1 — create-complaint postcondition -/

/-- C1 (counterexample): the claim says every create-complaint request is
stored with `status = "pending"`, but `ComplaintCreate` inherits every
`Complaint` field, so a request that explicitly supplies
`status = "complete"` is stored with status `"complete"`. -/
theorem C1_counterexample :
    (lookupKey (create_complaint
        { customer_name := "A", customer_contact := "a@x.com",
          subject := "No signal", description := "d", status := "complete" }
        oid24 oidB 0 emptyDB).2.complaints oid24).map ComplaintDoc.status
      = some "complete" ∧ ("complete" : String) ≠ "pending" := by
  constructor
  · rfl
  · decide

/-- C1 (amended): for every create-complaint request, the stored
complaint carries the status, assigned team and notes of the request —
which default to `"pending"`, absent and empty when not supplied — and
exactly one notification of type `"info"` addressed to `"admin"` and
referencing the new complaint's identifier is created. -/
theorem C1_create_postcondition (payload : ComplaintCreate) (compId notifId : String)
    (now : Nat) (st : DBState) (hfresh : lookupKey st.complaints compId = none) :
    (create_complaint payload compId notifId now st).1 = compId ∧
    (∃ c, lookupKey (create_complaint payload compId notifId now st).2.complaints compId = some c ∧
      c.status = payload.status ∧ c.assigned_team = payload.assigned_team ∧
      c.notes = payload.notes ∧ c.created_at = now ∧ c.updated_at = now) ∧
    (create_complaint payload compId notifId now st).2.notifications =
      st.notifications ++ [(notifId, createNotif payload compId now)] ∧
    (createNotif payload compId now).type = "info" ∧
    (createNotif payload compId now).user_id = "admin" ∧
    (createNotif payload compId now).related_complaint_id = some compId ∧
    (∀ cn cc su de,
      ({ customer_name := cn, customer_contact := cc,
         subject := su, description := de } : ComplaintCreate).status = "pending" ∧
      ({ customer_name := cn, customer_contact := cc,
         subject := su, description := de } : ComplaintCreate).assigned_team = none ∧
      ({ customer_name := cn, customer_contact := cc,
         subject := su, description := de } : ComplaintCreate).notes = ([] : List Note)) := by
  refine ⟨rfl, ⟨_, lookupKey_append_fresh st.complaints compId _ hfresh, rfl, rfl, rfl, rfl, rfl⟩,
    rfl, rfl, rfl, rfl, fun cn cc su de => ⟨rfl, rfl, rfl⟩⟩

/-- C1 witness: the amended postcondition evaluated on the empty store
with the sample payload. -/
theorem C1_create_postcondition_witness :
    lookupKey emptyDB.complaints oid24 = none ∧
    ((create_complaint pay1 oid24 oidB 7 emptyDB).1 = oid24 ∧
      (∃ c, lookupKey (create_complaint pay1 oid24 oidB 7 emptyDB).2.complaints oid24 = some c ∧
        c.status = pay1.status ∧ c.assigned_team = pay1.assigned_team ∧
        c.notes = pay1.notes ∧ c.created_at = 7 ∧ c.updated_at = 7) ∧
      (create_complaint pay1 oid24 oidB 7 emptyDB).2.notifications =
        emptyDB.notifications ++ [(oidB, createNotif pay1 oid24 7)] ∧
      (createNotif pay1 oid24 7).type = "info" ∧
      (createNotif pay1 oid24 7).user_id = "admin" ∧
      (createNotif pay1 oid24 7).related_complaint_id = some oid24 ∧
      (∀ cn cc su de,
        ({ customer_name := cn, customer_contact := cc,
           subject := su, description := de } : ComplaintCreate).status = "pending" ∧
        ({ customer_name := cn, customer_contact := cc,
           subject := su, description := de } : ComplaintCreate).assigned_team = none ∧
        ({ customer_name := cn, customer_contact := cc,
           subject := su, description := de } : ComplaintCreate).notes = ([] : List Note))) :=
  ⟨rfl, C1_create_postcondition pay1 oid24 oidB 7 emptyDB rfl⟩

/-! ### Shared facts about the operations -/

/-- On a well-formed id and a matched complaint, `update_complaint`
succeeds and its complaint collection is the `update_one` rewrite. -/
theorem update_complaint_matched (cid : String) (p : ComplaintUpdate) (nid : String)
    (now : Nat) (st : DBState) (c : ComplaintDoc)
    (hid : validObjectId cid = true) (hm : lookupKey st.complaints cid = some c) :
    (update_complaint cid p nid now st).1 = .ok () ∧
    (update_complaint cid p nid now st).2.complaints =
      updateAssoc st.complaints cid (applyUpdateFields p now) := by
  cases hs : p.status <;> simp [update_complaint, hid, hm, hs]

/-- For a well-formed id, the complaint collection after
`update_complaint` is the `update_one` rewrite, matched or not. -/
theorem update_complaint_snd_complaints (cid : String) (p : ComplaintUpdate) (nid : String)
    (now : Nat) (st : DBState) (hid : validObjectId cid = true) :
    (update_complaint cid p nid now st).2.complaints =
      updateAssoc st.complaints cid (applyUpdateFields p now) := by
  cases hs : p.status <;> cases hm : lookupKey st.complaints cid <;>
    simp [update_complaint, hid, hm, hs]

/-- For a well-formed id, the complaint collection after `assign_team`
is the `update_one` rewrite, matched or not. -/
theorem assign_team_snd_complaints (cid team nid : String) (now : Nat) (st : DBState)
    (hid : validObjectId cid = true) :
    (assign_team cid ⟨team⟩ nid now st).2.complaints =
      updateAssoc st.complaints cid
        (fun c => { c with assigned_team := some team, status := "process", updated_at := now }) := by
  cases hm : lookupKey st.complaints cid <;> simp [assign_team, hid, hm]

/-- `mark_notification` never touches the complaint collection. -/
theorem mark_notification_snd_complaints (nid : String) (req : MarkReadRequest) (now : Nat)
    (st : DBState) : (mark_notification nid req now st).2.complaints = st.complaints := by
  by_cases hv : validObjectId nid
  · cases hm : lookupKey st.notifications nid <;> simp [mark_notification, hv, hm]
  · simp [mark_notification, hv]

/-- Field-by-field description of the `$set` document applied by
`update_complaint`. -/
theorem applyUpdateFields_fields (p : ComplaintUpdate) (now : Nat) (c : ComplaintDoc) :
    (applyUpdateFields p now c).subject = p.subject.getD c.subject ∧
    (applyUpdateFields p now c).description = p.description.getD c.description ∧
    (applyUpdateFields p now c).priority = p.priority.getD c.priority ∧
    (applyUpdateFields p now c).status = p.status.getD c.status ∧
    (applyUpdateFields p now c).assigned_team =
      (match p.assigned_team with | some t => some t | none => c.assigned_team) ∧
    (applyUpdateFields p now c).updated_at = now ∧
    (applyUpdateFields p now c).customer_name = c.customer_name ∧
    (applyUpdateFields p now c).customer_contact = c.customer_contact ∧
    (applyUpdateFields p now c).address = c.address ∧
    (applyUpdateFields p now c).created_at = c.created_at := by
  cases hn : p.note with
  | none => simp [applyUpdateFields, hn]
  | some s => by_cases hs : s = "" <;> simp [applyUpdateFields, hn, hs]

/-- The note is pushed exactly when supplied and non-empty. -/
theorem applyUpdateFields_notes (p : ComplaintUpdate) (now : Nat) (c : ComplaintDoc) :
    (p.note = none → (applyUpdateFields p now c).notes = c.notes) ∧
    (p.note = some "" → (applyUpdateFields p now c).notes = c.notes) ∧
    (∀ s, p.note = some s → s ≠ "" →
      (applyUpdateFields p now c).notes = c.notes ++ [⟨s, now⟩]) := by
  refine ⟨fun hn => by simp [applyUpdateFields, hn], fun hn => by simp [applyUpdateFields, hn],
    fun s hn hs => by simp [applyUpdateFields, hn, hs]⟩

/-! ### C2 — empty team identifier on assign -/

/-- C2 (counterexample): the claim says an assign request with an empty
team value fails and leaves the complaint unmodified, but
`AssignTeamRequest` only requires the field to be present: assigning the
empty string succeeds and sets `assigned_team` to `some ""`. -/
theorem C2_counterexample :
    (assign_team oid24 ⟨""⟩ oidC 2 sampleDB).1 = .ok () ∧
    (lookupKey (assign_team oid24 ⟨""⟩ oidC 2 sampleDB).2.complaints oid24).map
        ComplaintDoc.assigned_team = some (some "") ∧
    (assign_team oid24 ⟨""⟩ oidC 2 sampleDB).2 ≠ sampleDB := by
  refine ⟨rfl, rfl, by decide⟩

/-- C2 (amended): the assign-team operation requires the `team` field to
be present but performs no emptiness check: an assign request whose team
value is the empty string succeeds on any existing complaint, modifying
it — `assigned_team` becomes the empty string and `status` `"process"`. -/
theorem C2_assign_empty_team (complaint_id notifId : String) (now : Nat) (st : DBState)
    (c : ComplaintDoc) (hid : validObjectId complaint_id = true)
    (hmem : lookupKey st.complaints complaint_id = some c) :
    (assign_team complaint_id ⟨""⟩ notifId now st).1 = .ok () ∧
    lookupKey (assign_team complaint_id ⟨""⟩ notifId now st).2.complaints complaint_id =
      some { c with assigned_team := some "", status := "process", updated_at := now } := by
  constructor
  · simp [assign_team, hid, hmem]
  · rw [assign_team_snd_complaints complaint_id "" notifId now st hid,
      lookupKey_updateAssoc_self, hmem]
    rfl

/-- C2 witness: the amended behaviour evaluated on the sample store. -/
theorem C2_assign_empty_team_witness :
    validObjectId oid24 = true ∧
    ((assign_team oid24 ⟨""⟩ oidC 2 sampleDB).1 = .ok () ∧
      lookupKey (assign_team oid24 ⟨""⟩ oidC 2 sampleDB).2.complaints oid24 =
        some { sampleComplaint with assigned_team := some "", status := "process", updated_at := 2 }) :=
  ⟨by decide, C2_assign_empty_team oid24 oidC 2 sampleDB sampleComplaint (by decide) rfl⟩

/-! ### C3 — update notification fires exactly on supplied status -/

/-- C3: on a successful update of an existing complaint, exactly one
admin notification is appended iff `status` was among the supplied
fields; its type is `"success"` when the new status is `"complete"` and
`"info"` otherwise; nothing is appended when `status` is omitted, even
if other fields or a note change. -/
theorem C3_update_notification (complaint_id : String) (payload : ComplaintUpdate)
    (notifId : String) (now : Nat) (st st' : DBState)
    (h : update_complaint complaint_id payload notifId now st = (.ok (), st')) :
    (payload.status = none → st'.notifications = st.notifications) ∧
    (∀ s, payload.status = some s →
      st'.notifications = st.notifications ++ [(notifId, statusNotif complaint_id s now)] ∧
      (statusNotif complaint_id s now).user_id = "admin" ∧
      (statusNotif complaint_id s now).type =
        (if s = "complete" then "success" else "info") ∧
      (statusNotif complaint_id s now).related_complaint_id = some complaint_id) := by
  by_cases hv : validObjectId complaint_id
  · cases hm : lookupKey st.complaints complaint_id with
    | none => simp [update_complaint, hv, hm] at h
    | some c =>
      cases hs : payload.status with
      | none =>
        simp only [update_complaint, hv, hm, hs, Option.isSome_some, Bool.not_eq_true,
          not_true, ite_false, if_neg, not_false_eq_true, Prod.mk.injEq, true_and] at h
        refine ⟨fun _ => ?_, fun s hs' => Option.noConfusion hs'⟩
        rw [← h]
      | some s =>
        simp only [update_complaint, hv, hm, hs, Option.isSome_some, Bool.not_eq_true,
          not_true, ite_false, if_neg, not_false_eq_true, Prod.mk.injEq, true_and] at h
        refine ⟨fun hn => Option.noConfusion hn, fun s' hs' => ?_⟩
        cases hs'
        exact ⟨by rw [← h], rfl, rfl, rfl⟩
  · simp [update_complaint, hv] at h

/-- C3 witness: updating the sample complaint with only
`status = "complete"` emits exactly one success notification. -/
theorem C3_update_notification_witness :
    (update_complaint oid24 updComplete oidC 5 sampleDB).2.notifications =
      sampleDB.notifications ++ [(oidC, statusNotif oid24 "complete" 5)] ∧
    (statusNotif oid24 "complete" 5).type = "success" ∧
    (statusNotif oid24 "complete" 5).user_id = "admin" := by
  have h := (C3_update_notification oid24 updComplete oidC 5 sampleDB
    (update_complaint oid24 updComplete oidC 5 sampleDB).2 rfl).2 "complete" rfl
  exact ⟨h.1, by rw [h.2.2.1]; rfl, h.2.1⟩

/-! ### C4 — assignment overrides any prior status -/

/-- C4: for a well-formed identifier, assign-team on a missing complaint
fails with NotFound; on an existing complaint — whatever its prior
status, `"complete"` included — it succeeds, forces
`status = "process"`, sets `assigned_team` to the given team, refreshes
`updated_at`, and appends exactly one `"warning"` notification addressed
to that team. -/
theorem C4_assign_team (complaint_id team notifId : String) (now : Nat) (st : DBState)
    (hid : validObjectId complaint_id = true) :
    (lookupKey st.complaints complaint_id = none →
      (assign_team complaint_id ⟨team⟩ notifId now st).1 = .error .NotFound) ∧
    (∀ c, lookupKey st.complaints complaint_id = some c →
      (assign_team complaint_id ⟨team⟩ notifId now st).1 = .ok () ∧
      lookupKey (assign_team complaint_id ⟨team⟩ notifId now st).2.complaints complaint_id =
        some { c with assigned_team := some team, status := "process", updated_at := now } ∧
      (assign_team complaint_id ⟨team⟩ notifId now st).2.notifications =
        st.notifications ++ [(notifId, assignNotif team complaint_id now)] ∧
      (assignNotif team complaint_id now).type = "warning" ∧
      (assignNotif team complaint_id now).user_id = team) := by
  constructor
  · intro hm
    simp [assign_team, hid, hm]
  · intro c hm
    refine ⟨by simp [assign_team, hid, hm], ?_, by simp [assign_team, hid, hm], rfl, rfl⟩
    rw [assign_team_snd_complaints complaint_id team notifId now st hid,
      lookupKey_updateAssoc_self, hm]
    rfl

/-- C4 witness: assigning `"NetOps"` to the sample complaint, whose
prior status is `"complete"`. -/
theorem C4_assign_team_witness :
    sampleComplaint.status = "complete" ∧
    ((assign_team oid24 ⟨"NetOps"⟩ oidC 9 sampleDB).1 = .ok () ∧
      lookupKey (assign_team oid24 ⟨"NetOps"⟩ oidC 9 sampleDB).2.complaints oid24 =
        some { sampleComplaint with assigned_team := some "NetOps", status := "process", updated_at := 9 } ∧
      (assign_team oid24 ⟨"NetOps"⟩ oidC 9 sampleDB).2.notifications =
        sampleDB.notifications ++ [(oidC, assignNotif "NetOps" oid24 9)] ∧
      (assignNotif "NetOps" oid24 9).type = "warning" ∧
      (assignNotif "NetOps" oid24 9).user_id = "NetOps") :=
  ⟨rfl, (C4_assign_team oid24 "NetOps" oidC 9 sampleDB (by decide)).2 sampleComplaint rfl⟩

/-! ### C5 — partial update frame condition -/

/-- C5: for a well-formed identifier, an update of a missing complaint
fails with NotFound; on an existing complaint, each supplied field among
subject, description, priority, status, assigned_team is replaced by the
supplied value, each omitted one keeps its previous value, `updated_at`
is refreshed, and the immutable fields are untouched. -/
theorem C5_update_frame (complaint_id : String) (payload : ComplaintUpdate) (notifId : String)
    (now : Nat) (st : DBState) (hid : validObjectId complaint_id = true) :
    (lookupKey st.complaints complaint_id = none →
      (update_complaint complaint_id payload notifId now st).1 = .error .NotFound) ∧
    (∀ c, lookupKey st.complaints complaint_id = some c →
      (update_complaint complaint_id payload notifId now st).1 = .ok () ∧
      ∃ c', lookupKey (update_complaint complaint_id payload notifId now st).2.complaints
          complaint_id = some c' ∧
        (∀ v, payload.subject = some v → c'.subject = v) ∧
        (payload.subject = none → c'.subject = c.subject) ∧
        (∀ v, payload.description = some v → c'.description = v) ∧
        (payload.description = none → c'.description = c.description) ∧
        (∀ v, payload.priority = some v → c'.priority = v) ∧
        (payload.priority = none → c'.priority = c.priority) ∧
        (∀ v, payload.status = some v → c'.status = v) ∧
        (payload.status = none → c'.status = c.status) ∧
        (∀ v, payload.assigned_team = some v → c'.assigned_team = some v) ∧
        (payload.assigned_team = none → c'.assigned_team = c.assigned_team) ∧
        c'.updated_at = now ∧
        c'.customer_name = c.customer_name ∧
        c'.customer_contact = c.customer_contact ∧
        c'.address = c.address ∧
        c'.created_at = c.created_at) := by
  constructor
  · intro hm
    cases hs : payload.status <;> simp [update_complaint, hid, hm, hs]
  · intro c hm
    obtain ⟨h1, h2⟩ := update_complaint_matched complaint_id payload notifId now st c hid hm
    obtain ⟨f1, f2, f3, f4, f5, f6, f7, f8, f9, f10⟩ := applyUpdateFields_fields payload now c
    refine ⟨h1, applyUpdateFields payload now c, ?_, ?_, ?_, ?_, ?_, ?_, ?_, ?_, ?_, ?_, ?_,
      f6, f7, f8, f9, f10⟩
    · rw [h2, lookupKey_updateAssoc_self, hm]; rfl
    · intro v hv; rw [f1, hv]; rfl
    · intro hv; rw [f1, hv]; rfl
    · intro v hv; rw [f2, hv]; rfl
    · intro hv; rw [f2, hv]; rfl
    · intro v hv; rw [f3, hv]; rfl
    · intro hv; rw [f3, hv]; rfl
    · intro v hv; rw [f4, hv]; rfl
    · intro hv; rw [f4, hv]; rfl
    · intro v hv; rw [f5, hv]
    · intro hv; rw [f5, hv]

/-- C5 witness: a status-only update of the sample complaint replaces
the status, keeps the subject, and refreshes `updated_at`. -/
theorem C5_update_frame_witness :
    (update_complaint oid24 updComplete oidB 8 sampleDB).1 = .ok () ∧
    ∃ c', lookupKey (update_complaint oid24 updComplete oidB 8 sampleDB).2.complaints oid24 =
        some c' ∧
      c'.status = "complete" ∧ c'.subject = sampleComplaint.subject ∧ c'.updated_at = 8 := by
  obtain ⟨h1, c', hlk, g1, g2, g3, g4, g5, g6, g7, g8, g9, g10, g11, g12, g13, g14, g15⟩ :=
    ((C5_update_frame oid24 updComplete oidB 8 sampleDB (by decide)).2 sampleComplaint rfl)
  exact ⟨h1, c', hlk, g7 "complete" rfl, g2 rfl, g11⟩

/-! ### C6 — malformed identifiers fail fast -/

/-- C6: a malformed identifier makes every id-taking operation (get,
update, assign, mark-read) fail with BadId whatever the store contains,
without modifying it, and BadId is a distinct outcome from NotFound. -/
theorem C6_badid_fail_fast (badId : String) (hbad : validObjectId badId = false) :
    (∀ st, get_complaint badId st = .error .BadId) ∧
    (∀ payload notifId now st,
      update_complaint badId payload notifId now st = (.error .BadId, st)) ∧
    (∀ team notifId now st, assign_team badId ⟨team⟩ notifId now st = (.error .BadId, st)) ∧
    (∀ req now st, mark_notification badId req now st = (.error .BadId, st)) ∧
    ApiError.BadId ≠ ApiError.NotFound := by
  refine ⟨fun st => ?_, fun p n t st => ?_, fun tm n t st => ?_, fun r n st => ?_,
    fun hcontra => ApiError.noConfusion hcontra⟩ <;>
    simp [get_complaint, update_complaint, assign_team, mark_notification, hbad]

/-- C6 witness: the malformed token `"xyz"` fails with BadId on get and
on update, leaving the sample store untouched. -/
theorem C6_badid_fail_fast_witness :
    validObjectId "xyz" = false ∧
    get_complaint "xyz" sampleDB = .error .BadId ∧
    update_complaint "xyz" updComplete oidC 5 sampleDB = (.error .BadId, sampleDB) :=
  ⟨by decide, (C6_badid_fail_fast "xyz" (by decide)).1 sampleDB,
    (C6_badid_fail_fast "xyz" (by decide)).2.1 updComplete oidC 5 sampleDB⟩

/-! ### C7 — the notes timeline only grows -/

/-- C7: across update (with or without a note), assign and mark-read —
whatever the outcome — every stored complaint's notes are either
unchanged or extended by exactly one entry at the end; nothing is
removed, edited or reordered. -/
theorem C7_notes_append_only (st st' : DBState)
    (h : (∃ cid p nid now, (update_complaint cid p nid now st).2 = st') ∨
         (∃ cid team nid now, (assign_team cid ⟨team⟩ nid now st).2 = st') ∨
         (∃ nid req now, (mark_notification nid req now st).2 = st')) :
    ∀ k c, lookupKey st.complaints k = some c →
      ∃ c', lookupKey st'.complaints k = some c' ∧
        (c'.notes = c.notes ∨ ∃ e, c'.notes = c.notes ++ [e]) := by
  intro k c hk
  rcases h with ⟨cid, p, nid, now, h⟩ | ⟨cid, team, nid, now, h⟩ | ⟨nid, req, now, h⟩
  · by_cases hv : validObjectId cid
    · subst h
      rw [update_complaint_snd_complaints cid p nid now st hv]
      by_cases hkc : k = cid
      · subst hkc
        rw [lookupKey_updateAssoc_self, hk]
        refine ⟨_, rfl, ?_⟩
        obtain ⟨n1, n2, n3⟩ := applyUpdateFields_notes p now c
        cases hn : p.note with
        | none => exact Or.inl (n1 hn)
        | some sNote =>
          by_cases hse : sNote = ""
          · subst hse
            exact Or.inl (n2 hn)
          · exact Or.inr ⟨⟨sNote, now⟩, n3 sNote hn hse⟩
      · rw [lookupKey_updateAssoc_ne st.complaints cid k _ hkc]
        exact ⟨c, hk, Or.inl rfl⟩
    · simp only [update_complaint, hv, not_false_eq_true, if_pos, ite_true] at h
      subst h
      exact ⟨c, hk, Or.inl rfl⟩
  · by_cases hv : validObjectId cid
    · subst h
      rw [assign_team_snd_complaints cid team nid now st hv]
      by_cases hkc : k = cid
      · subst hkc
        rw [lookupKey_updateAssoc_self, hk]
        exact ⟨_, rfl, Or.inl rfl⟩
      · rw [lookupKey_updateAssoc_ne st.complaints cid k _ hkc]
        exact ⟨c, hk, Or.inl rfl⟩
    · simp only [assign_team, hv, not_false_eq_true, if_pos, ite_true] at h
      subst h
      exact ⟨c, hk, Or.inl rfl⟩
  · subst h
    rw [mark_notification_snd_complaints nid req now st]
    exact ⟨c, hk, Or.inl rfl⟩

/-- C7 witness: a note-carrying update of the sample complaint appends
one entry. -/
theorem C7_notes_append_only_witness :
    ∃ c', lookupKey (update_complaint oid24 updNoteOnly oidC 3 sampleDB).2.complaints oid24 =
        some c' ∧
      (c'.notes = sampleComplaint.notes ∨ ∃ e, c'.notes = sampleComplaint.notes ++ [e]) :=
  C7_notes_append_only sampleDB (update_complaint oid24 updNoteOnly oidC 3 sampleDB).2
    (Or.inl ⟨oid24, updNoteOnly, oidC, 3, rfl⟩) oid24 sampleComplaint rfl

/-! ### C8 — mark-notification read state -/

/-- C8: for a well-formed identifier, mark-notification on a missing
record fails with NotFound; on an existing one it sets `is_read` to the
caller-supplied boolean — which defaults to true when omitted —
refreshes `updated_at`, and affects no other record (the complaint
collection and every other notification are untouched). -/
theorem C8_mark_notification (nid : String) (req : MarkReadRequest) (now : Nat) (st : DBState)
    (hid : validObjectId nid = true) :
    (lookupKey st.notifications nid = none →
      (mark_notification nid req now st).1 = .error .NotFound) ∧
    (∀ n, lookupKey st.notifications nid = some n →
      (mark_notification nid req now st).1 = .ok () ∧
      lookupKey (mark_notification nid req now st).2.notifications nid =
        some { n with is_read := req.is_read, updated_at := now } ∧
      (∀ k, k ≠ nid → lookupKey (mark_notification nid req now st).2.notifications k =
        lookupKey st.notifications k) ∧
      (mark_notification nid req now st).2.complaints = st.complaints) ∧
    ({} : MarkReadRequest).is_read = true := by
  refine ⟨fun hm => by simp [mark_notification, hid, hm], fun n hm => ?_, rfl⟩
  have hsnd : (mark_notification nid req now st).2.notifications =
      updateAssoc st.notifications nid
        (fun m => { m with is_read := req.is_read, updated_at := now }) := by
    simp [mark_notification, hid, hm]
  refine ⟨by simp [mark_notification, hid, hm], ?_, fun k hk => ?_,
    mark_notification_snd_complaints nid req now st⟩
  · rw [hsnd, lookupKey_updateAssoc_self, hm]
    rfl
  · rw [hsnd, lookupKey_updateAssoc_ne st.notifications nid k _ hk]

/-- C8 witness: marking the sample notification with the default
request sets `is_read` to true and leaves the complaint collection
alone. -/
theorem C8_mark_notification_witness :
    lookupKey sampleDB.notifications oidB = some sampleNotif ∧
    ((mark_notification oidB {} 4 sampleDB).1 = .ok () ∧
      lookupKey (mark_notification oidB {} 4 sampleDB).2.notifications oidB =
        some { sampleNotif with is_read := true, updated_at := 4 } ∧
      (mark_notification oidB {} 4 sampleDB).2.complaints = sampleDB.complaints) := by
  obtain ⟨-, h2, -⟩ := C8_mark_notification oidB {} 4 sampleDB (by decide)
  obtain ⟨g1, g2, -, g4⟩ := h2 sampleNotif rfl
  exact ⟨rfl, g1, g2, g4⟩

/-! ### C9 — NotFound failures are atomic -/

/-- C9: when update or assign fails with NotFound, the store is exactly
as before — in particular no notification record was created. -/
theorem C9_notfound_atomic (st : DBState) :
    (∀ cid p nid now, (update_complaint cid p nid now st).1 = .error .NotFound →
      (update_complaint cid p nid now st).2 = st) ∧
    (∀ cid team nid now, (assign_team cid ⟨team⟩ nid now st).1 = .error .NotFound →
      (assign_team cid ⟨team⟩ nid now st).2 = st) := by
  constructor
  · intro cid p nid now h
    by_cases hv : validObjectId cid
    · cases hm : lookupKey st.complaints cid with
      | none =>
        simp [update_complaint, hv, hm, updateAssoc_of_lookupKey_none st.complaints cid _ hm]
      | some c =>
        obtain ⟨h1, -⟩ := update_complaint_matched cid p nid now st c hv hm
        rw [h] at h1
        exact Except.noConfusion h1
    · simp [update_complaint, hv]
  · intro cid team nid now h
    by_cases hv : validObjectId cid
    · cases hm : lookupKey st.complaints cid with
      | none =>
        simp [assign_team, hv, hm, updateAssoc_of_lookupKey_none st.complaints cid _ hm]
      | some c =>
        have h1 : (assign_team cid ⟨team⟩ nid now st).1 = .ok () := by
          simp [assign_team, hv, hm]
        rw [h] at h1
        exact Except.noConfusion h1
    · simp [assign_team, hv]

/-- C9 witness: updating a well-formed but absent identifier fails with
NotFound and leaves the sample store exactly as it was. -/
theorem C9_notfound_atomic_witness :
    (update_complaint oidC updEmpty oidB 4 sampleDB).1 = .error .NotFound ∧
    (update_complaint oidC updEmpty oidB 4 sampleDB).2 = sampleDB :=
  ⟨rfl, (C9_notfound_atomic sampleDB).1 oidC updEmpty oidB 4 rfl⟩

/-! ### C10 — a note is appended iff present and non-empty -/

/-- C10: on an update of an existing complaint, a note entry is appended
to the timeline iff the supplied note text is present and non-empty: an
omitted or empty-string note leaves the timeline unchanged, a non-empty
one appends exactly `{text, timestamp = now}` — and an append never
equals the unchanged timeline. -/
theorem C10_note_append_iff (cid : String) (payload : ComplaintUpdate) (nid : String)
    (now : Nat) (st : DBState) (c : ComplaintDoc)
    (hid : validObjectId cid = true) (hm : lookupKey st.complaints cid = some c) :
    ∃ c', lookupKey (update_complaint cid payload nid now st).2.complaints cid = some c' ∧
      (payload.note = none → c'.notes = c.notes) ∧
      (payload.note = some "" → c'.notes = c.notes) ∧
      (∀ s, payload.note = some s → s ≠ "" → c'.notes = c.notes ++ [⟨s, now⟩]) ∧
      (∀ e, c.notes ++ [e] ≠ c.notes) := by
  obtain ⟨-, h2⟩ := update_complaint_matched cid payload nid now st c hid hm
  obtain ⟨n1, n2, n3⟩ := applyUpdateFields_notes payload now c
  refine ⟨applyUpdateFields payload now c, ?_, n1, n2, n3, fun e he => ?_⟩
  · rw [h2, lookupKey_updateAssoc_self, hm]
    rfl
  · simpa using congrArg List.length he

/-- C10 witness: an empty-string note on the sample complaint appends
nothing. -/
theorem C10_note_append_iff_witness :
    ∃ c', lookupKey (update_complaint oid24 updEmptyNote oidB 6 sampleDB).2.complaints oid24 =
        some c' ∧
      (updEmptyNote.note = none → c'.notes = sampleComplaint.notes) ∧
      (updEmptyNote.note = some "" → c'.notes = sampleComplaint.notes) ∧
      (∀ s, updEmptyNote.note = some s → s ≠ "" →
        c'.notes = sampleComplaint.notes ++ [⟨s, 6⟩]) ∧
      (∀ e, sampleComplaint.notes ++ [e] ≠ sampleComplaint.notes) :=
  C10_note_append_iff oid24 updEmptyNote oidB 6 sampleDB sampleComplaint (by decide) rfl

end ComplaintApp
